import Mathlib

/-!
Shallow embedding of `src/crates/openai/src/serve/proxy/req.rs` from the
`ninja` repository: the inbound-request rewriting stage of a reverse proxy
(conversation rewriter, dashboard rewriter, sentinel chat-requirements fetch,
and the top-level dispatcher `send_request`).

External collaborators live outside `src/` (the session-id cache
`get_or_init` / `reduce_key`, the arkose challenge-token broker, the `toapi`
local handler, `header_convert`, and the outbound HTTP client).  They are
modelled as an environment of oracles (`Env`), and every call to one of them
is recorded as an `ExtCall` event in a trace, so that theorems can speak
about exactly which external calls a code path performs.
-/

namespace NinjaProxy

/-- Error payloads carried inside a `ResponseError`.  `proxy e` embeds the
`ProxyError` enum; the remaining constructors stand for the other error
sources appearing in `req.rs` (serde_json parse errors, invalid header
values, `HeaderValue::to_str` failures, upstream non-success statuses,
transport failures, `GPTModel::from_str` failures). -/
inductive ProxyError where
  | BodyRequired
  | BodyMustBeJsonObject
  | ModelRequired
  | AccessTokenRequired
deriving DecidableEq

inductive ErrPayload where
  | proxy (e : ProxyError)
  | jsonParse
  | invalidHeaderValue
  | headerNotStr
  | upstreamStatus
  | transport
  | modelParse
deriving DecidableEq

/-- The `ResponseError` classes used in `req.rs`: `BadRequest` (client
fault), `Unauthorized` (authentication fault), `InternalServerError`
(server fault). -/
inductive ResponseError where
  | BadRequest (e : ErrPayload)
  | Unauthorized (e : ErrPayload)
  | InternalServerError (e : ErrPayload)
deriving DecidableEq

/-- JSON values as produced by serde_json parsing (numbers collapsed to
`Int`, which suffices for the properties considered here).  Objects are
ordered field lists, mirroring a serde_json map. -/
inductive Json where
  | null
  | bool (b : Bool)
  | num (n : Int)
  | str (s : String)
  | arr (xs : List Json)
  | obj (fields : List (String × Json))

/-- Body bytes, abstracted by their serde_json parse outcome: `Bytes.json v`
stands for bytes whose `serde_json::from_slice` yields `v` (in particular
the output of `serde_json::to_vec(&v)`), and `Bytes.raw s` for bytes on
which JSON parsing fails. -/
inductive Bytes where
  | json (v : Json)
  | raw (s : String)

/-- Modelled from the spec: serde_json's `from_slice` (the BodyCodec parsing
half; serde_json is an external crate, not under `src/`).  It succeeds
exactly on bytes that are a JSON serialization, returning the parsed value. -/
def serde_from_slice : Bytes → Except ErrPayload Json
  | .json v => .ok v
  | .raw _ => .error .jsonParse

/-- Modelled from the spec: serde_json's `to_vec` (the BodyCodec
serialization half).  Serialization of an in-memory JSON value is total and
round-trips through `serde_from_slice`; the `map_err` branch in the source
at this call site is therefore not reachable in the model. -/
def serde_to_vec (v : Json) : Bytes := .json v

def Json.as_str : Json → Option String
  | .str s => some s
  | _ => none

def Json.asObject : Json → Option (List (String × Json))
  | .obj fields => some fields
  | _ => none

/-- serde_json `Value::get` on a key: field lookup when the value is an
object, `none` otherwise. -/
def Json.getField : Json → String → Option Json
  | .obj fields, k => (fields.find? (fun p => p.1 == k)).map Prod.snd
  | _, _ => none

/-- serde_json map `get`: lookup of a key in an object's field list. -/
def objGet (obj : List (String × Json)) (k : String) : Option Json :=
  (obj.find? (fun p => p.1 == k)).map Prod.snd

/-- serde_json map `insert`: replace the value at an existing key in place,
or append the binding at the end. -/
def objInsert : List (String × Json) → String → Json → List (String × Json)
  | [], k, v => [(k, v)]
  | (k', v') :: rest, k, v =>
    if k' = k then (k, v) :: rest else (k', v') :: objInsert rest k v

/-- Modelled from the spec: the constants from `crate::constant`
(`constant.rs` is not under `src/`).  The session marker `PUID` follows the
spec's end-to-end scenario (`Cookie` contains the marker `puid`). -/
def PUID : String := "puid"

def MODEL : String := "model"

def ARKOSE_TOKEN : String := "arkose_token"

def NULL : String := "null"

def EMPTY : String := ""

def COOKIE : String := "cookie"

def AUTHORIZATION : String := "authorization"

def SENTINEL_HEADER : String := "openai-sentinel-chat-requirements-token"

def ARKOSE_HEADER : String := "openai-sentinel-arkose-token"

/-- Header collections: association lists of (lower-cased name, value),
mirroring `http::HeaderMap` for the operations `req.rs` uses. -/
abbrev HeaderMap := List (String × String)

/-- `HeaderMap::get`: first value stored under a name. -/
def headerGet (h : HeaderMap) (k : String) : Option String :=
  (h.find? (fun p => p.1 == k)).map Prod.snd

/-- `HeaderMap::insert`: replace every value previously stored under the
name with the single new value. -/
def headerInsert (h : HeaderMap) (k v : String) : HeaderMap :=
  (k, v) :: h.filter (fun p => p.1 != k)

/-- `HeaderValue::from_str`: succeeds iff every character is visible (no
control characters except horizontal tab, no DEL). -/
def headerValueFromStr (s : String) : Except ErrPayload String :=
  if s.data.all (fun c => c.toNat == 9 || (32 ≤ c.toNat && c.toNat != 127)) then
    .ok s
  else
    .error .invalidHeaderValue

/-- `HeaderValue::to_str`: succeeds iff the value is visible ASCII (or
horizontal tab). -/
def headerValueToStr (s : String) : Except ErrPayload String :=
  if s.data.all (fun c => c.toNat == 9 || (32 ≤ c.toNat && c.toNat < 127)) then
    .ok s
  else
    .error .headerNotStr

/-- Substring search on character lists (`str::contains`): the pattern
occurs as a prefix of some suffix. -/
def listContainsSub : List Char → List Char → Bool
  | [], pat => pat.isEmpty
  | c :: rest, pat => pat.isPrefixOf (c :: rest) || listContainsSub rest pat

/-- `str::contains`. -/
def strContains (s pat : String) : Bool :=
  listContainsSub s.data pat.data

inductive Method where
  | GET
  | POST
  | PUT
  | DELETE
  | other (s : String)
deriving DecidableEq

/-- The parts of `http::Uri` that `req.rs` reads: `path()` and
`path_and_query()`. -/
structure Uri where
  path : String
  query : Option String
deriving DecidableEq

/-- `Uri::path_and_query` rendered as a string (the source falls back to
`path()` when the URI has no path-and-query part; for the origin-form URIs
a proxy receives the part is always present, so the fallback coincides). -/
def Uri.path_and_query (u : Uri) : String :=
  u.path ++ (match u.query with | some q => "?" ++ q | none => "")

/-- The caller-owned cookie-jar handle, passed through to `header_convert`
unchanged and otherwise opaque to this file. -/
structure CookieJar where
  tag : Nat
deriving DecidableEq

/-- The inbound request as `RequestExt` carries it: URI, method, headers,
cookie jar, optional body bytes. -/
structure RequestExt where
  uri : Uri
  method : Method
  headers : HeaderMap
  jar : CookieJar
  body : Option Bytes

/-- Modelled from the spec: `RequestExt::bearer_auth` (defined in `ext.rs`,
not under `src/`) — the derived bearer-credential accessor extracting the
credential from the Authorization header. -/
def RequestExt.bearer_auth (req : RequestExt) : Option String :=
  match headerGet req.headers AUTHORIZATION with
  | some v =>
    if "Bearer ".data.isPrefixOf v.data then some (String.mk (v.data.drop 7)) else none
  | none => none

/-- The arkose challenge type (`crate::arkose::Type`): derived from the chat
model, or the fixed `Platform` type for the dashboard rewriter. -/
inductive ArkoseType where
  | gpt3
  | gpt4
  | platform
deriving DecidableEq

/-- Modelled from the spec: `GPTModel` (`gpt_model.rs` is not under
`src/`) — a parsed, validated identifier for the "gpt-3" / "gpt-4" model
families, with classification driving downstream branching. -/
inductive GPTModel where
  | gpt3
  | gpt4
deriving DecidableEq

/-- Modelled from the spec: `GPTModel::from_str`, failing with a bad-request
payload on an unrecognized model string. -/
def GPTModel.from_str (s : String) : Except ErrPayload GPTModel :=
  if "gpt-3".data.isPrefixOf s.data then .ok .gpt3
  else if "gpt-4".data.isPrefixOf s.data then .ok .gpt4
  else .error .modelParse

def GPTModel.is_gpt3 : GPTModel → Bool
  | .gpt3 => true
  | .gpt4 => false

def GPTModel.is_gpt4 : GPTModel → Bool
  | .gpt3 => false
  | .gpt4 => true

/-- `Into<Type> for GPTModel`: the challenge type derived from the model. -/
def GPTModel.into : GPTModel → ArkoseType
  | .gpt3 => .gpt3
  | .gpt4 => .gpt4

/-- Outcome of the HTTP exchange performed by
`create_chat_requirements_token`: transport failure of `send()`, a
non-success status from `error_for_status()`, a transport failure while
reading the body, or the body bytes. -/
inductive SentinelHttp where
  | transportErr
  | statusErr
  | bodyErr
  | body (b : Bytes)

/-- One recorded call to an external collaborator. -/
inductive ExtCall where
  | toapi
  | getOrInit (credential model cacheKey : String)
  | sentinel (credential : String)
  | arkose (typed : ArkoseType) (identifier : Option String)
  | headerConvert
  | send (url : String)

/-- The upstream response wrapper (`ResponseExt`); its payload is opaque to
this file. -/
structure ResponseExt where
  inner : Nat
deriving DecidableEq

/-- The environment of external collaborators (spec §6).  `toapi_support` /
`toapi_result` model the local-handling short-circuit; `header_convert` the
header-conversion collaborator; `reduce_key` / `get_or_init` the session-id
cache; `sentinel` the upstream sentinel endpoint exchange keyed by the
(Bearer-trimmed) credential; `arkose` the challenge broker keyed by the
challenge type and optional identifier (the shared client handle is a
process-wide singleton and is left implicit); `send_upstream` the outbound
HTTP client. -/
structure Env where
  toapi_support : RequestExt → Bool
  toapi_result : RequestExt → Except ResponseError ResponseExt
  header_convert : HeaderMap → CookieJar → String → Except ResponseError HeaderMap
  reduce_key : String → Except ResponseError String
  get_or_init : String → String → String → Except ResponseError (Option String)
  sentinel : String → SentinelHttp
  arkose : ArkoseType → Option String → Except ResponseError String
  arkose_gpt3_experiment : Bool
  send_upstream : String → HeaderMap → Option Bytes → Except ResponseError Nat

/-- Result of a fallible step together with the trace of external calls it
made.  The trace is kept also when the step fails, so that theorems about
"no call was made" cover the error paths. -/
abbrev Res (α : Type) : Type := Except ResponseError α × List ExtCall

/-- Sequencing of `Res` steps: an error aborts, keeping the trace so far;
on success the traces are concatenated. -/
def Res.seq {α β : Type} (r : Res α) (f : α → Res β) : Res β :=
  match r with
  | (.error e, t) => (.error e, t)
  | (.ok a, t) =>
    match f a with
    | (rb, t2) => (rb, t ++ t2)

/-- `str::trim_start_matches("Bearer ")`: repeatedly strip the prefix.  The
fuel `s.length` bounds the number of strips. -/
def trimBearerAux : Nat → List Char → List Char
  | 0, s => s
  | n + 1, s => if "Bearer ".data.isPrefixOf s then trimBearerAux n (s.drop 7) else s

def trimBearer (s : String) : String :=
  String.mk (trimBearerAux s.data.length s.data)

/-- `create_chat_requirements_token` (req.rs:230-249): POST the sentinel
chat-requirements endpoint with the Bearer-trimmed credential; a `send()`
failure is `InternalServerError`, a non-success status is `BadRequest`, a
body-read failure propagates as a transport (internal) error, an unparsable
body is `BadRequest`; on a parsed body, return the string value of the
`token` field, or `none` when the field is missing or non-string. -/
def create_chat_requirements_token (env : Env) (token : String) : Res (Option String) :=
  match env.sentinel (trimBearer token) with
  | .transportErr => (.error (.InternalServerError .transport), [.sentinel (trimBearer token)])
  | .statusErr => (.error (.BadRequest .upstreamStatus), [.sentinel (trimBearer token)])
  | .bodyErr => (.error (.InternalServerError .transport), [.sentinel (trimBearer token)])
  | .body b =>
    match serde_from_slice b with
    | .error e => (.error (.BadRequest e), [.sentinel (trimBearer token)])
    | .ok j =>
      match (j.getField "token").bind Json.as_str with
      | some s => (.ok (some s), [.sentinel (trimBearer token)])
      | none => (.ok none, [.sentinel (trimBearer token)])

/-- `has_puid` (req.rs:66-73): whether the Cookie header already carries the
session marker; a non-ASCII cookie value is a `BadRequest`. -/
def has_puid (headers : HeaderMap) : Except ResponseError Bool :=
  match headerGet headers COOKIE with
  | some hv =>
    match headerValueToStr hv with
    | .error e => .error (.BadRequest e)
    | .ok s => .ok (strContains s PUID)
  | none => .ok false

/-- The session-cookie step of `handle_conv_request` (req.rs:108-123): if no
session cookie is present, derive the cache key, call `get_or_init`, and on
a returned id set the Cookie header to `PUID=id;`. -/
def conv_puid_step (env : Env) (req : RequestExt) (model token : String) : Res RequestExt :=
  match has_puid req.headers with
  | .error e => (.error e, [])
  | .ok true => (.ok req, [])
  | .ok false =>
    match env.reduce_key token with
    | .error e => (.error e, [])
    | .ok cache_id =>
      match env.get_or_init token model cache_id with
      | .error e => (.error e, [.getOrInit token model cache_id])
      | .ok none => (.ok req, [.getOrInit token model cache_id])
      | .ok (some puid) =>
        match headerValueFromStr (PUID ++ "=" ++ puid ++ ";") with
        | .error e => (.error (.BadRequest e), [.getOrInit token model cache_id])
        | .ok hv =>
          (.ok { req with headers := headerInsert req.headers COOKIE hv },
           [.getOrInit token model cache_id])

/-- The sentinel-token step of `handle_conv_request` (req.rs:125-138): fetch
the chat-requirements token; on `some`, inject it as the dedicated header;
on `none`, warn and continue. -/
def conv_sentinel_step (env : Env) (req : RequestExt) (token : String) : Res RequestExt :=
  match create_chat_requirements_token env token with
  | (.error e, t) => (.error e, t)
  | (.ok none, t) => (.ok req, t)
  | (.ok (some crt), t) =>
    match headerValueFromStr crt with
    | .error e => (.error (.BadRequest e), t)
    | .ok hv => (.ok { req with headers := headerInsert req.headers SENTINEL_HEADER hv }, t)

/-- The challenge-token decision of req.rs:145-159, extracted as the boolean
`condition` ("need a new token"): true when the field is absent, or when its
string view (a non-string value reads as `EMPTY`) is empty or `NULL`. -/
def arkose_need (obj : List (String × Json)) : Bool :=
  match objGet obj ARKOSE_TOKEN with
  | some tv => (Json.as_str tv).getD EMPTY == EMPTY || (Json.as_str tv).getD EMPTY == NULL
  | none => true

/-- The broker acquisition of req.rs:161-181: acquire a challenge token for
the model-derived type with the bearer credential as identifier; insert its
value into the body's field, re-serialize the whole JSON document as the new
body bytes, and set the dedicated challenge header. -/
def conv_arkose_acquire (env : Env) (req : RequestExt) (obj : List (String × Json))
    (gmodel : GPTModel) (token : String) : Res RequestExt :=
  match env.arkose gmodel.into (some token) with
  | .error e => (.error e, [.arkose gmodel.into (some token)])
  | .ok v =>
    match headerValueFromStr v with
    | .error e => (.error (.BadRequest e), [.arkose gmodel.into (some token)])
    | .ok hv =>
      (.ok { req with
               body := some (serde_to_vec (Json.obj (objInsert obj ARKOSE_TOKEN (Json.str v)))),
               headers := headerInsert req.headers ARKOSE_HEADER hv },
       [.arkose gmodel.into (some token)])

/-- The challenge-token step of `handle_conv_request` (req.rs:144-182): runs
only when (experiment flag and gpt-3) or gpt-4; a present, non-empty,
non-"null" string field is mirrored into the challenge header and no
acquisition occurs; otherwise a fresh token is acquired. -/
def conv_arkose_step (env : Env) (req : RequestExt) (obj : List (String × Json))
    (gmodel : GPTModel) (token : String) : Res RequestExt :=
  if (env.arkose_gpt3_experiment && gmodel.is_gpt3) || gmodel.is_gpt4 then
    match objGet obj ARKOSE_TOKEN with
    | some tv =>
      if (Json.as_str tv).getD EMPTY == EMPTY || (Json.as_str tv).getD EMPTY == NULL then
        conv_arkose_acquire env req obj gmodel token
      else
        match headerValueFromStr ((Json.as_str tv).getD EMPTY) with
        | .error e => (.error (.BadRequest e), [])
        | .ok hv => (.ok { req with headers := headerInsert req.headers ARKOSE_HEADER hv }, [])
    | none => conv_arkose_acquire env req obj gmodel token
  else
    (.ok req, [])

/-- `handle_conv_request` (req.rs:76-187): a no-op unless method is POST and
the path is the conversation endpoint; then body-required, JSON-object,
model-required and access-token checks, followed by the session-cookie
step, the sentinel step, model parsing, and the challenge-token step. -/
def handle_conv_request (env : Env) (req : RequestExt) : Res RequestExt :=
  if req.uri.path = "/backend-api/conversation" ∧ req.method = Method.POST then
    match req.body with
    | none => (.error (.BadRequest (.proxy .BodyRequired)), [])
    | some b =>
      match serde_from_slice b with
      | .error e => (.error (.BadRequest e), [])
      | .ok json =>
        match json.asObject with
        | none => (.error (.BadRequest (.proxy .BodyMustBeJsonObject)), [])
        | some obj =>
          match (objGet obj MODEL).bind Json.as_str with
          | none => (.error (.BadRequest (.proxy .ModelRequired)), [])
          | some model =>
            match req.bearer_auth with
            | none => (.error (.Unauthorized (.proxy .AccessTokenRequired)), [])
            | some token =>
              Res.seq (conv_puid_step env req model token) (fun req1 =>
                Res.seq (conv_sentinel_step env req1 token) (fun req2 =>
                  match GPTModel.from_str model with
                  | .error e => (.error (.BadRequest e), [])
                  | .ok gmodel => conv_arkose_step env req2 obj gmodel token))
  else
    (.ok req, [])

/-- `handle_dashboard_request` (req.rs:190-228): a no-op unless method is
POST and the path is the API-key endpoint; then the same body checks; if the
`arkose_token` field is absent (presence only, no emptiness check), acquire
a platform-type challenge token with no identifier, insert it into the body
and replace the body bytes. -/
def handle_dashboard_request (env : Env) (req : RequestExt) : Res RequestExt :=
  if req.uri.path = "/dashboard/user/api_keys" ∧ req.method = Method.POST then
    match req.body with
    | none => (.error (.BadRequest (.proxy .BodyRequired)), [])
    | some b =>
      match serde_from_slice b with
      | .error e => (.error (.BadRequest e), [])
      | .ok json =>
        match json.asObject with
        | none => (.error (.BadRequest (.proxy .BodyMustBeJsonObject)), [])
        | some obj =>
          match objGet obj ARKOSE_TOKEN with
          | some _ => (.ok req, [])
          | none =>
            match env.arkose .platform none with
            | .error e => (.error e, [.arkose .platform none])
            | .ok v =>
              (.ok { req with
                       body := some (serde_to_vec (Json.obj (objInsert obj ARKOSE_TOKEN (Json.str v)))) },
               [.arkose .platform none])
  else
    (.ok req, [])

/-- `send_request` (req.rs:26-62): short-circuit to the local handler when
`toapi::support` holds; otherwise build the forwarding URL, run the
conversation rewriter, the dashboard rewriter, convert headers, attach the
(possibly replaced) body and send. -/
def send_request (env : Env) (origin : String) (req : RequestExt) : Res ResponseExt :=
  if env.toapi_support req then
    (env.toapi_result req, [.toapi])
  else
    Res.seq (handle_conv_request env req) (fun req1 =>
      Res.seq (handle_dashboard_request env req1) (fun req2 =>
        match env.header_convert req2.headers req2.jar origin with
        | .error e => (.error e, [.headerConvert])
        | .ok hs =>
          match env.send_upstream (origin ++ req.uri.path_and_query) hs req2.body with
          | .error e =>
            (.error e, [.headerConvert, .send (origin ++ req.uri.path_and_query)])
          | .ok r =>
            (.ok ⟨r⟩, [.headerConvert, .send (origin ++ req.uri.path_and_query)])))

/-- Whether a trace event is an outbound upstream send. -/
def ExtCall.isSend : ExtCall → Bool
  | .send _ => true
  | _ => false

/-- Whether a trace event is a session-cache `get_or_init` call. -/
def ExtCall.isGetOrInit : ExtCall → Bool
  | .getOrInit _ _ _ => true
  | _ => false

/-- Whether a trace event is a sentinel-endpoint fetch. -/
def ExtCall.isSentinel : ExtCall → Bool
  | .sentinel _ => true
  | _ => false

/-- Whether a trace event is a challenge-broker acquisition. -/
def ExtCall.isArkose : ExtCall → Bool
  | .arkose _ _ => true
  | _ => false

/-- Whether a trace event is one of the three rewrite-stage external calls
(session cache, sentinel fetch, challenge broker). -/
def ExtCall.isRewriteCall (c : ExtCall) : Bool :=
  c.isGetOrInit || c.isSentinel || c.isArkose

/-- A stub environment of collaborators used for concrete evaluations: no
local short-circuit, identity header conversion, identity cache-key
reduction, session id "sid123", a sentinel body carrying token "sent456",
challenge token "chal789", experiment flag off. -/
def stubEnv : Env where
  toapi_support := fun _ => false
  toapi_result := fun _ => .ok ⟨0⟩
  header_convert := fun h _ _ => .ok h
  reduce_key := fun s => .ok s
  get_or_init := fun _ _ _ => .ok (some "sid123")
  sentinel := fun _ => .body (.json (.obj [("token", .str "sent456")]))
  arkose := fun _ _ => .ok "chal789"
  arkose_gpt3_experiment := false
  send_upstream := fun _ _ _ => .ok 0

/-- A concrete conversation request: POST to the conversation endpoint, body
with only a model field, Bearer credential, no cookie. -/
def convReq : RequestExt where
  uri := ⟨"/backend-api/conversation", none⟩
  method := .POST
  headers := [(AUTHORIZATION, "Bearer abc")]
  jar := ⟨0⟩
  body := some (.json (.obj [(MODEL, .str "gpt-4")]))

/-- A conversation request whose JSON-object body has no model field. -/
def convReqNoModel : RequestExt where
  uri := ⟨"/backend-api/conversation", none⟩
  method := .POST
  headers := [(AUTHORIZATION, "Bearer abc")]
  jar := ⟨0⟩
  body := some (.json (.obj [("foo", .str "bar")]))

/-- A conversation request with a model field but no Authorization header. -/
def convReqNoAuth : RequestExt where
  uri := ⟨"/backend-api/conversation", none⟩
  method := .POST
  headers := []
  jar := ⟨0⟩
  body := some (.json (.obj [(MODEL, .str "gpt-4")]))

/-- A GET request to the conversation path: matches neither rewriter. -/
def getReq : RequestExt where
  uri := ⟨"/backend-api/conversation", none⟩
  method := .GET
  headers := []
  jar := ⟨0⟩
  body := none

/-- A concrete dashboard request with an empty JSON-object body. -/
def dashReq : RequestExt where
  uri := ⟨"/dashboard/user/api_keys", none⟩
  method := .POST
  headers := []
  jar := ⟨0⟩
  body := some (.json (.obj []))

/-- The dashboard request after its rewrite under `stubEnv`. -/
def dashReqOut : RequestExt :=
  { dashReq with body := some (.json (.obj [(ARKOSE_TOKEN, .str "chal789")])) }

/-- The stub environment with a sentinel response whose JSON body lacks a
token field. -/
def stubEnvMissing : Env :=
  { stubEnv with sentinel := fun _ => .body (.json (.obj [])) }

/-- The stub environment with a sentinel endpoint failing at the transport
level. -/
def stubEnvDown : Env :=
  { stubEnv with sentinel := fun _ => .transportErr }

/-- A conversation request carrying a Cookie header without the session
marker. -/
def convReqCookie : RequestExt where
  uri := ⟨"/backend-api/conversation", none⟩
  method := .POST
  headers := [(AUTHORIZATION, "Bearer abc"), (COOKIE, "foo=bar")]
  jar := ⟨0⟩
  body := some (.json (.obj [(MODEL, .str "gpt-4")]))

/-- A conversation request whose body already carries a non-empty,
non-"null" arkose_token string. -/
def convReqTok : RequestExt where
  uri := ⟨"/backend-api/conversation", none⟩
  method := .POST
  headers := [(AUTHORIZATION, "Bearer abc")]
  jar := ⟨0⟩
  body := some (.json (.obj [(MODEL, .str "gpt-4"), (ARKOSE_TOKEN, .str "tok1")]))

/-- The conversation request `convReq` after its full rewrite under
`stubEnv`: session cookie set, sentinel header set, challenge token injected
into header and body. -/
def convReqOut : RequestExt where
  uri := ⟨"/backend-api/conversation", none⟩
  method := .POST
  headers := [(ARKOSE_HEADER, "chal789"), (SENTINEL_HEADER, "sent456"),
              (COOKIE, "puid=sid123;"), (AUTHORIZATION, "Bearer abc")]
  jar := ⟨0⟩
  body := some (.json (.obj [(MODEL, .str "gpt-4"), (ARKOSE_TOKEN, .str "chal789")]))

theorem objGet_objInsert_self (obj : List (String × Json)) (k : String) (v : Json) :
    objGet (objInsert obj k v) k = some v := by
  induction obj with
  | nil => simp [objGet, objInsert]
  | cons p rest ih =>
    obtain ⟨k', v'⟩ := p
    by_cases h : k' = k
    · simp [objInsert, h, objGet]
    · simpa [objInsert, h, objGet, List.find?_cons_of_neg, h] using ih

theorem objGet_objInsert_ne (obj : List (String × Json)) (k k' : String) (v : Json)
    (h : k' ≠ k) : objGet (objInsert obj k v) k' = objGet obj k' := by
  induction obj with
  | nil => simp [objGet, objInsert, List.find?_cons_of_neg, Ne.symm h]
  | cons p rest ih =>
    obtain ⟨k0, v0⟩ := p
    by_cases h0 : k0 = k
    · subst h0
      simp [objInsert, objGet, List.find?_cons_of_neg, Ne.symm h]
    · by_cases h1 : k0 = k'
      · subst h1
        simp [objInsert, h0, objGet, List.find?_cons_of_pos]
      · simpa [objInsert, h0, objGet, List.find?_cons_of_neg, h1] using ih

theorem headerGet_headerInsert_self (h : HeaderMap) (k v : String) :
    headerGet (headerInsert h k v) k = some v := by
  simp [headerGet, headerInsert, List.find?_cons_of_pos]

theorem find?_filter_ne (h : HeaderMap) (k k' : String) (hne : k' ≠ k) :
    (h.filter (fun p => p.1 != k)).find? (fun p => p.1 == k') =
      h.find? (fun p => p.1 == k') := by
  induction h with
  | nil => rfl
  | cons p rest ih =>
    obtain ⟨k0, v0⟩ := p
    rw [List.filter_cons]
    by_cases h0 : k0 = k
    · subst h0
      rw [if_neg (by simp), ih, List.find?_cons_of_neg _ (by simp [Ne.symm hne])]
    · rw [if_pos (by simp [h0])]
      by_cases h1 : k0 = k'
      · subst h1
        rw [List.find?_cons_of_pos _ (by simp), List.find?_cons_of_pos _ (by simp)]
      · rw [List.find?_cons_of_neg _ (by simp [h1]),
          List.find?_cons_of_neg _ (by simp [h1]), ih]

theorem headerGet_headerInsert_ne (h : HeaderMap) (k k' v : String) (hne : k' ≠ k) :
    headerGet (headerInsert h k v) k' = headerGet h k' := by
  simp only [headerGet, headerInsert]
  rw [List.find?_cons_of_neg _ (by simp [Ne.symm hne]), find?_filter_ne h k k' hne]

theorem headerValueFromStr_ok_eq {s v : String} (h : headerValueFromStr s = .ok v) :
    v = s := by
  unfold headerValueFromStr at h
  split at h
  · exact (Except.ok.inj h).symm
  · exact absurd h (by simp)

theorem headerValueToStr_ok_eq {s v : String} (h : headerValueToStr s = .ok v) :
    v = s := by
  unfold headerValueToStr at h
  split at h
  · exact (Except.ok.inj h).symm
  · exact absurd h (by simp)

theorem Res.seq_eq_error {α β : Type} {r : Res α} {f : α → Res β} {e : ResponseError}
    {t : List ExtCall} (h : r = (.error e, t)) : Res.seq r f = (.error e, t) := by
  rw [h]; rfl

theorem Res.seq_eq_ok {α β : Type} {r : Res α} {f : α → Res β} {a : α} {t : List ExtCall}
    (h : r = (.ok a, t)) : Res.seq r f = ((f a).1, t ++ (f a).2) := by
  rw [h]; rfl

theorem Res.seq_snd_error {α β : Type} {r : Res α} {f : α → Res β} {e : ResponseError}
    {t : List ExtCall} (h : r = (.error e, t)) : (Res.seq r f).2 = t := by
  rw [h]; rfl

theorem Res.seq_snd_ok {α β : Type} {r : Res α} {f : α → Res β} {a : α}
    {t : List ExtCall} (h : r = (.ok a, t)) : (Res.seq r f).2 = t ++ (f a).2 := by
  rw [h]; rfl

theorem Res.seq_ok_inv {α β : Type} {r : Res α} {f : α → Res β} {b : β} {t : List ExtCall}
    (h : Res.seq r f = (.ok b, t)) :
    ∃ a t1 t2, r = (.ok a, t1) ∧ f a = (.ok b, t2) ∧ t = t1 ++ t2 := by
  obtain ⟨fst, t1⟩ := r
  cases fst with
  | error e => simp [Res.seq] at h
  | ok a =>
    rcases hfa : f a with ⟨rb, t2⟩
    rw [Res.seq, hfa] at h
    simp only [Prod.mk.injEq] at h
    exact ⟨a, t1, t2, rfl, by rw [hfa, h.1], h.2.symm⟩

theorem Res.seq_all {α β : Type} (r : Res α) (f : α → Res β) (p : ExtCall → Bool)
    (h1 : r.2.all p = true) (h2 : ∀ a, (f a).2.all p = true) :
    (Res.seq r f).2.all p = true := by
  obtain ⟨fst, t1⟩ := r
  cases fst with
  | error e => exact h1
  | ok a =>
    rcases hfa : f a with ⟨rb, t2⟩
    rw [Res.seq, hfa]
    have h2a := h2 a
    rw [hfa] at h2a
    simp only [List.all_append, h1, h2a]
    rfl

theorem filter_eq_nil_of_all {p q : ExtCall → Bool} (t : List ExtCall)
    (h : t.all p = true) (hpq : ∀ x, p x = true → q x = false) : t.filter q = [] := by
  rw [List.filter_eq_nil_iff]
  intro a ha
  have := (List.all_eq_true.mp h) a ha
  simp [hpq a this]

theorem all_weaken {p q : ExtCall → Bool} (t : List ExtCall) (h : t.all p = true)
    (hpq : ∀ x, p x = true → q x = true) : t.all q = true := by
  rw [List.all_eq_true] at h ⊢
  exact fun x hx => hpq x (h x hx)

theorem isRewriteCall_of_isGetOrInit (x : ExtCall) (h : x.isGetOrInit = true) :
    x.isRewriteCall = true := by
  simp [ExtCall.isRewriteCall, h]

theorem isRewriteCall_of_isSentinel (x : ExtCall) (h : x.isSentinel = true) :
    x.isRewriteCall = true := by
  simp [ExtCall.isRewriteCall, h]

theorem isRewriteCall_of_isArkose (x : ExtCall) (h : x.isArkose = true) :
    x.isRewriteCall = true := by
  simp [ExtCall.isRewriteCall, h]

theorem isSend_false_of_isRewriteCall (x : ExtCall) (h : x.isRewriteCall = true) :
    x.isSend = false := by
  cases x <;> simp_all [ExtCall.isRewriteCall, ExtCall.isGetOrInit, ExtCall.isSentinel,
    ExtCall.isArkose, ExtCall.isSend]

theorem create_chat_requirements_token_trace (env : Env) (token : String) :
    (create_chat_requirements_token env token).2 = [.sentinel (trimBearer token)] := by
  unfold create_chat_requirements_token
  repeat' split
  all_goals rfl

theorem conv_sentinel_step_trace (env : Env) (req : RequestExt) (token : String) :
    (conv_sentinel_step env req token).2 = [.sentinel (trimBearer token)] := by
  have h := create_chat_requirements_token_trace env token
  unfold conv_sentinel_step
  rcases hc : create_chat_requirements_token env token with ⟨r, t⟩
  rw [hc] at h
  simp only at h
  subst h
  cases r with
  | error e => rfl
  | ok o =>
    cases o with
    | none => rfl
    | some crt =>
      simp only
      split
      · rfl
      · rfl

theorem conv_puid_step_all (env : Env) (req : RequestExt) (model token : String) :
    (conv_puid_step env req model token).2.all ExtCall.isGetOrInit = true := by
  unfold conv_puid_step
  repeat' split
  all_goals simp [ExtCall.isGetOrInit]

theorem conv_arkose_acquire_trace (env : Env) (req : RequestExt)
    (obj : List (String × Json)) (gmodel : GPTModel) (token : String) :
    (conv_arkose_acquire env req obj gmodel token).2 = [.arkose gmodel.into (some token)] := by
  unfold conv_arkose_acquire
  repeat' split
  all_goals rfl

theorem conv_arkose_step_all (env : Env) (req : RequestExt) (obj : List (String × Json))
    (gmodel : GPTModel) (token : String) :
    (conv_arkose_step env req obj gmodel token).2.all ExtCall.isArkose = true := by
  unfold conv_arkose_step
  split
  · split
    · split
      · rw [conv_arkose_acquire_trace]
        rfl
      · split
        · rfl
        · rfl
    · rw [conv_arkose_acquire_trace]
      rfl
  · rfl

theorem handle_conv_request_all (env : Env) (req : RequestExt) :
    (handle_conv_request env req).2.all ExtCall.isRewriteCall = true := by
  unfold handle_conv_request
  split
  · split
    · rfl
    · split
      · rfl
      · split
        · rfl
        · split
          · rfl
          · split
            · rfl
            · apply Res.seq_all
              · exact all_weaken _ (conv_puid_step_all env req _ _) isRewriteCall_of_isGetOrInit
              · intro req1
                apply Res.seq_all
                · rw [conv_sentinel_step_trace]
                  simp [ExtCall.isRewriteCall, ExtCall.isSentinel]
                · intro req2
                  split
                  · rfl
                  · exact all_weaken _ (conv_arkose_step_all env req2 _ _ _)
                      isRewriteCall_of_isArkose
  · rfl

theorem handle_dashboard_request_all (env : Env) (req : RequestExt) :
    (handle_dashboard_request env req).2.all ExtCall.isRewriteCall = true := by
  unfold handle_dashboard_request
  repeat' split
  all_goals simp [ExtCall.isRewriteCall, ExtCall.isArkose]

theorem conv_puid_step_skip (env : Env) (req : RequestExt) (model token : String)
    (h : has_puid req.headers = .ok true) :
    conv_puid_step env req model token = (.ok req, []) := by
  simp only [conv_puid_step, h]

theorem conv_puid_step_trace_called (env : Env) (req : RequestExt) (model token ck : String)
    (h : has_puid req.headers = .ok false) (hrk : env.reduce_key token = .ok ck) :
    (conv_puid_step env req model token).2 = [.getOrInit token model ck] := by
  simp only [conv_puid_step, h, hrk]
  cases hg : env.get_or_init token model ck with
  | error e => rfl
  | ok o =>
    cases o with
    | none => rfl
    | some id =>
      simp only
      split
      · rfl
      · rfl

theorem conv_puid_step_sets_cookie (env : Env) (req : RequestExt)
    (model token ck id : String) (req1 : RequestExt) (t1 : List ExtCall)
    (h : has_puid req.headers = .ok false) (hrk : env.reduce_key token = .ok ck)
    (hgi : env.get_or_init token model ck = .ok (some id))
    (hs : conv_puid_step env req model token = (.ok req1, t1)) :
    headerGet req1.headers COOKIE = some (PUID ++ "=" ++ id ++ ";") := by
  simp only [conv_puid_step, h, hrk, hgi] at hs
  cases hhv : headerValueFromStr (PUID ++ "=" ++ id ++ ";") with
  | error e => rw [hhv] at hs; simp at hs
  | ok hv =>
    rw [hhv] at hs
    simp only [Prod.mk.injEq] at hs
    have hveq := headerValueFromStr_ok_eq hhv
    have hreq := Except.ok.inj hs.1
    rw [← hreq]
    simp only
    rw [headerGet_headerInsert_self, hveq]

theorem conv_sentinel_step_preserves_cookie (env : Env) (req : RequestExt) (token : String)
    (req' : RequestExt) (t : List ExtCall)
    (h : conv_sentinel_step env req token = (.ok req', t)) :
    headerGet req'.headers COOKIE = headerGet req.headers COOKIE := by
  unfold conv_sentinel_step at h
  rcases hc : create_chat_requirements_token env token with ⟨r, tc⟩
  rw [hc] at h
  cases r with
  | error e => simp at h
  | ok o =>
    cases o with
    | none =>
      simp only [Prod.mk.injEq] at h
      rw [← Except.ok.inj h.1]
    | some crt =>
      simp only at h
      split at h
      · simp at h
      · simp only [Prod.mk.injEq] at h
        rw [← Except.ok.inj h.1]
        exact headerGet_headerInsert_ne _ _ _ _ (by decide)

theorem conv_arkose_acquire_preserves_cookie (env : Env) (req : RequestExt)
    (obj : List (String × Json)) (gmodel : GPTModel) (token : String)
    (req' : RequestExt) (t : List ExtCall)
    (h : conv_arkose_acquire env req obj gmodel token = (.ok req', t)) :
    headerGet req'.headers COOKIE = headerGet req.headers COOKIE := by
  unfold conv_arkose_acquire at h
  split at h
  · simp at h
  · split at h
    · simp at h
    · simp only [Prod.mk.injEq] at h
      rw [← Except.ok.inj h.1]
      exact headerGet_headerInsert_ne _ _ _ _ (by decide)

theorem conv_arkose_step_preserves_cookie (env : Env) (req : RequestExt)
    (obj : List (String × Json)) (gmodel : GPTModel) (token : String)
    (req' : RequestExt) (t : List ExtCall)
    (h : conv_arkose_step env req obj gmodel token = (.ok req', t)) :
    headerGet req'.headers COOKIE = headerGet req.headers COOKIE := by
  unfold conv_arkose_step at h
  split at h
  · split at h
    · split at h
      · exact conv_arkose_acquire_preserves_cookie _ _ _ _ _ _ _ h
      · split at h
        · simp at h
        · simp only [Prod.mk.injEq] at h
          rw [← Except.ok.inj h.1]
          exact headerGet_headerInsert_ne _ _ _ _ (by decide)
    · exact conv_arkose_acquire_preserves_cookie _ _ _ _ _ _ _ h
  · simp only [Prod.mk.injEq] at h
    rw [← Except.ok.inj h.1]

theorem has_puid_false_of_no_marker (headers : HeaderMap) (c : String)
    (hc : headerGet headers COOKIE = some c) (hts : headerValueToStr c = .ok c)
    (hnm : strContains c PUID = false) : has_puid headers = .ok false := by
  simp only [has_puid, hc, hts, hnm]

/-- When the body carries a non-empty, non-"null" arkose_token string, the
challenge-token step makes no external call at all, whether or not the
header value is accepted (a `from_str` failure aborts before any
acquisition). -/
theorem conv_arkose_step_mirror_trace (env : Env) (req : RequestExt)
    (obj : List (String × Json)) (gmodel : GPTModel) (token s : String)
    (htok : objGet obj ARKOSE_TOKEN = some (Json.str s))
    (hne : s ≠ EMPTY) (hnn : s ≠ NULL) :
    (conv_arkose_step env req obj gmodel token).2 = [] := by
  unfold conv_arkose_step
  split
  · simp only [htok, Json.as_str, Option.getD_some]
    rw [if_neg (by simp [hne, hnn])]
    split
    · rfl
    · rfl
  · rfl

/-- For a request matching the conversation route with a JSON-object body, a
string model field and a bearer credential, the conversation rewriter is the
sequential composition of the session-cookie step, the sentinel step, model
parsing and the challenge-token step. -/
theorem handle_conv_request_unfold (env : Env) (req : RequestExt) (b : Bytes)
    (obj : List (String × Json)) (model token : String)
    (hpath : req.uri.path = "/backend-api/conversation")
    (hmethod : req.method = Method.POST)
    (hb : req.body = some b)
    (hparse : serde_from_slice b = .ok (Json.obj obj))
    (hmodel : (objGet obj MODEL).bind Json.as_str = some model)
    (hauth : req.bearer_auth = some token) :
    handle_conv_request env req =
      Res.seq (conv_puid_step env req model token) (fun req1 =>
        Res.seq (conv_sentinel_step env req1 token) (fun req2 =>
          match GPTModel.from_str model with
          | .error e => (.error (.BadRequest e), [])
          | .ok gmodel => conv_arkose_step env req2 obj gmodel token)) := by
  unfold handle_conv_request
  rw [if_pos (And.intro hpath hmethod), hb]
  simp only [hparse, Json.asObject, hmodel, hauth]

/-- C4: for every POST request to the conversation endpoint whose body
parses as a JSON object but has no string model field, the conversation
rewrite fails with the ModelRequired error; the empty trace records that
zero calls were made to the session-id cache, the sentinel fetcher and the
challenge broker. -/
theorem conv_model_required_no_calls (env : Env) (req : RequestExt) (b : Bytes)
    (obj : List (String × Json))
    (hpath : req.uri.path = "/backend-api/conversation")
    (hmethod : req.method = Method.POST)
    (hb : req.body = some b)
    (hparse : serde_from_slice b = .ok (Json.obj obj))
    (hmodel : (objGet obj MODEL).bind Json.as_str = none) :
    handle_conv_request env req = (.error (.BadRequest (.proxy .ModelRequired)), []) := by
  unfold handle_conv_request
  rw [if_pos (And.intro hpath hmethod), hb]
  simp only [hparse, Json.asObject, hmodel]

theorem conv_model_required_no_calls_witness :
    handle_conv_request stubEnv convReqNoModel
      = (.error (.BadRequest (.proxy .ModelRequired)), []) :=
  conv_model_required_no_calls stubEnv convReqNoModel _ [("foo", .str "bar")]
    rfl rfl rfl rfl rfl

/-- C5: for every request whose (method, path) pair does not match the
conversation endpoint, the conversation rewriter returns success with the
request unchanged and an empty call trace; likewise for the dashboard
rewriter on its endpoint. -/
theorem rewriters_nonmatching_noop (env : Env) (req : RequestExt) :
    (¬(req.uri.path = "/backend-api/conversation" ∧ req.method = Method.POST) →
       handle_conv_request env req = (.ok req, [])) ∧
    (¬(req.uri.path = "/dashboard/user/api_keys" ∧ req.method = Method.POST) →
       handle_dashboard_request env req = (.ok req, [])) := by
  constructor
  · intro hc
    unfold handle_conv_request
    rw [if_neg hc]
  · intro hd
    unfold handle_dashboard_request
    rw [if_neg hd]

theorem rewriters_nonmatching_noop_witness :
    handle_conv_request stubEnv getReq = (.ok getReq, []) ∧
    handle_dashboard_request stubEnv getReq = (.ok getReq, []) :=
  ⟨(rewriters_nonmatching_noop stubEnv getReq).1 (by decide),
   (rewriters_nonmatching_noop stubEnv getReq).2 (by decide)⟩

/-- C9 (amended): for every conversation request with a non-empty
JSON-object body and a string model field but no bearer credential, the
rewrite fails with the access-token-required error surfaced in the
authentication-fault (Unauthorized) class, and no external call is made. -/
theorem conv_access_token_unauthorized (env : Env) (req : RequestExt) (b : Bytes)
    (obj : List (String × Json)) (model : String)
    (hpath : req.uri.path = "/backend-api/conversation")
    (hmethod : req.method = Method.POST)
    (hb : req.body = some b)
    (hparse : serde_from_slice b = .ok (Json.obj obj))
    (hmodel : (objGet obj MODEL).bind Json.as_str = some model)
    (hauth : req.bearer_auth = none) :
    handle_conv_request env req
      = (.error (.Unauthorized (.proxy .AccessTokenRequired)), []) := by
  unfold handle_conv_request
  rw [if_pos (And.intro hpath hmethod), hb]
  simp only [hparse, Json.asObject, hmodel, hauth]

theorem conv_access_token_unauthorized_witness :
    handle_conv_request stubEnv convReqNoAuth
      = (.error (.Unauthorized (.proxy .AccessTokenRequired)), []) :=
  conv_access_token_unauthorized stubEnv convReqNoAuth _ [(MODEL, .str "gpt-4")] "gpt-4"
    rfl rfl rfl rfl rfl rfl

/-- C9 (counterexample): at a concrete conversation request with a model
field and no Authorization header, the rewrite error is in the Unauthorized
class and not, as the claim states, in the bad-request class. -/
theorem access_token_error_class_counterexample :
    (handle_conv_request stubEnv convReqNoAuth).1
        = .error (.Unauthorized (.proxy .AccessTokenRequired)) ∧
    ∀ p, (handle_conv_request stubEnv convReqNoAuth).1 ≠ .error (.BadRequest p) := by
  constructor
  · rfl
  · intro p h
    have h2 : ResponseError.Unauthorized (.proxy .AccessTokenRequired)
        = ResponseError.BadRequest p := Except.error.inj h
    exact ResponseError.noConfusion h2

/-- C7: running the dashboard rewriter (under any environment) on any
successful output of the dashboard rewriter is a no-op: it returns the
request unchanged and its empty trace records that no second broker call
occurs; in particular the output body bytes are identical. -/
theorem dashboard_rewrite_idempotent (env env2 : Env) (req req' : RequestExt)
    (t : List ExtCall)
    (h : handle_dashboard_request env req = (.ok req', t)) :
    handle_dashboard_request env2 req' = (.ok req', []) := by
  unfold handle_dashboard_request at h
  split at h
  case isTrue hroute =>
    cases hb : req.body with
    | none => rw [hb] at h; simp at h
    | some b =>
      simp only [hb] at h
      cases hp : serde_from_slice b with
      | error e => simp only [hp] at h; simp at h
      | ok json =>
        simp only [hp] at h
        cases ho : json.asObject with
        | none => simp only [ho] at h; simp at h
        | some obj =>
          simp only [ho] at h
          cases hg : objGet obj ARKOSE_TOKEN with
          | some tv =>
            simp only [hg, Prod.mk.injEq] at h
            have hr : req = req' := Except.ok.inj h.1
            subst hr
            unfold handle_dashboard_request
            rw [if_pos hroute, hb]
            simp only [hp, ho, hg]
          | none =>
            simp only [hg] at h
            cases ha : env.arkose .platform none with
            | error e => simp only [ha] at h; simp at h
            | ok v =>
              simp only [ha, Prod.mk.injEq] at h
              have hr : ({ req with
                  body := some (serde_to_vec (Json.obj
                    (objInsert obj ARKOSE_TOKEN (Json.str v)))) } : RequestExt) = req' :=
                Except.ok.inj h.1
              subst hr
              unfold handle_dashboard_request
              dsimp only
              rw [if_pos hroute]
              simp only [serde_to_vec, serde_from_slice, Json.asObject,
                objGet_objInsert_self]
  case isFalse hroute =>
    simp only [Prod.mk.injEq] at h
    have hr : req = req' := Except.ok.inj h.1
    subst hr
    unfold handle_dashboard_request
    rw [if_neg hroute]

theorem dashboard_rewrite_idempotent_witness :
    handle_dashboard_request stubEnv dashReqOut = (.ok dashReqOut, []) :=
  dashboard_rewrite_idempotent stubEnv stubEnv dashReq dashReqOut
    [.arkose .platform none] rfl

/-- C3: for every dispatched request not taken by the local-handling
short-circuit, if the conversation rewriter, the dashboard rewriter or
header conversion fails, dispatch returns that error and the trace contains
no outbound send; and on success the trace shows the conversation rewriter,
then the dashboard rewriter, then header conversion all succeeding before
the single outbound send. -/
theorem send_request_rewrite_order (env : Env) (origin : String) (req : RequestExt)
    (hna : env.toapi_support req = false) :
    (∀ e t, handle_conv_request env req = (.error e, t) →
       send_request env origin req = (.error e, t) ∧
       t.filter ExtCall.isSend = []) ∧
    (∀ req1 t1 e t2, handle_conv_request env req = (.ok req1, t1) →
       handle_dashboard_request env req1 = (.error e, t2) →
       send_request env origin req = (.error e, t1 ++ t2) ∧
       (t1 ++ t2).filter ExtCall.isSend = []) ∧
    (∀ req1 t1 req2 t2 e, handle_conv_request env req = (.ok req1, t1) →
       handle_dashboard_request env req1 = (.ok req2, t2) →
       env.header_convert req2.headers req2.jar origin = .error e →
       send_request env origin req = (.error e, t1 ++ t2 ++ [.headerConvert]) ∧
       (t1 ++ t2 ++ [ExtCall.headerConvert]).filter ExtCall.isSend = []) ∧
    (∀ r t, send_request env origin req = (.ok r, t) →
       ∃ req1 t1 req2 t2 hs,
         handle_conv_request env req = (.ok req1, t1) ∧
         handle_dashboard_request env req1 = (.ok req2, t2) ∧
         env.header_convert req2.headers req2.jar origin = .ok hs ∧
         t = t1 ++ t2 ++ [.headerConvert, .send (origin ++ req.uri.path_and_query)]) := by
  have hcall : ∀ t : List ExtCall, t.all ExtCall.isRewriteCall = true →
      t.filter ExtCall.isSend = [] :=
    fun t ht => filter_eq_nil_of_all t ht isSend_false_of_isRewriteCall
  have hno : send_request env origin req =
      Res.seq (handle_conv_request env req) (fun req1 =>
        Res.seq (handle_dashboard_request env req1) (fun req2 =>
          match env.header_convert req2.headers req2.jar origin with
          | .error e => (.error e, [.headerConvert])
          | .ok hs =>
            match env.send_upstream (origin ++ req.uri.path_and_query) hs req2.body with
            | .error e =>
              (.error e, [.headerConvert, .send (origin ++ req.uri.path_and_query)])
            | .ok r =>
              (.ok ⟨r⟩, [.headerConvert, .send (origin ++ req.uri.path_and_query)]))) := by
    unfold send_request
    rw [if_neg (by simp [hna])]
  refine ⟨?_, ?_, ?_, ?_⟩
  · intro e t h
    constructor
    · rw [hno]
      exact Res.seq_eq_error h
    · have ha := handle_conv_request_all env req
      rw [h] at ha
      exact hcall t ha
  · intro req1 t1 e t2 h1 h2
    constructor
    · rw [hno]
      simp only [Res.seq_eq_ok h1]
      simp only [Res.seq_eq_error h2]
    · have a1 := handle_conv_request_all env req
      rw [h1] at a1
      have a2 := handle_dashboard_request_all env req1
      rw [h2] at a2
      rw [List.filter_append, hcall t1 a1, hcall t2 a2]
      rfl
  · intro req1 t1 req2 t2 e h1 h2 h3
    constructor
    · rw [hno]
      simp only [Res.seq_eq_ok h1]
      simp only [Res.seq_eq_ok h2]
      simp only [h3]
      simp [List.append_assoc]
    · have a1 := handle_conv_request_all env req
      rw [h1] at a1
      have a2 := handle_dashboard_request_all env req1
      rw [h2] at a2
      rw [List.filter_append, List.filter_append, hcall t1 a1, hcall t2 a2]
      rfl
  · intro r t h
    rw [hno] at h
    obtain ⟨req1, t1, trest, h1, hrest, ht⟩ := Res.seq_ok_inv h
    obtain ⟨req2, t2, t3, h2, h3, ht2⟩ := Res.seq_ok_inv hrest
    cases hhc : env.header_convert req2.headers req2.jar origin with
    | error e => simp only [hhc] at h3; simp at h3
    | ok hs =>
      simp only [hhc] at h3
      cases hsend : env.send_upstream (origin ++ req.uri.path_and_query) hs req2.body with
      | error e => simp only [hsend] at h3; simp at h3
      | ok rr =>
        simp only [hsend, Prod.mk.injEq] at h3
        refine ⟨req1, t1, req2, t2, hs, h1, h2, hhc, ?_⟩
        rw [ht, ht2, ← h3.2]
        simp [List.append_assoc]

/-- C1: for every POST conversation request with a JSON-object body whose
model field parses to a gpt-4 classification, a bearer credential, and no
arkose_token field, if the rewrite succeeds and the broker returned R, then
the new body is the serialization of the original object with the
arkose_token field set to R (so the bytes parse back as JSON, the field
equals R, and every other field is unchanged), and the dedicated challenge
header equals R. -/
theorem conv_fresh_arkose_token_injected (env : Env) (req req' : RequestExt)
    (t : List ExtCall) (b : Bytes) (obj : List (String × Json))
    (model token R : String) (gmodel : GPTModel)
    (hpath : req.uri.path = "/backend-api/conversation")
    (hmethod : req.method = Method.POST)
    (hb : req.body = some b)
    (hparse : serde_from_slice b = .ok (Json.obj obj))
    (hmodel : (objGet obj MODEL).bind Json.as_str = some model)
    (hauth : req.bearer_auth = some token)
    (hfs : GPTModel.from_str model = .ok gmodel)
    (hg4 : gmodel.is_gpt4 = true)
    (habsent : objGet obj ARKOSE_TOKEN = none)
    (hbroker : env.arkose gmodel.into (some token) = .ok R)
    (hok : handle_conv_request env req = (.ok req', t)) :
    req'.body = some (serde_to_vec (Json.obj (objInsert obj ARKOSE_TOKEN (Json.str R)))) ∧
    serde_from_slice (serde_to_vec (Json.obj (objInsert obj ARKOSE_TOKEN (Json.str R))))
      = .ok (Json.obj (objInsert obj ARKOSE_TOKEN (Json.str R))) ∧
    objGet (objInsert obj ARKOSE_TOKEN (Json.str R)) ARKOSE_TOKEN = some (Json.str R) ∧
    (∀ k, k ≠ ARKOSE_TOKEN →
       objGet (objInsert obj ARKOSE_TOKEN (Json.str R)) k = objGet obj k) ∧
    headerGet req'.headers ARKOSE_HEADER = some R := by
  rw [handle_conv_request_unfold env req b obj model token hpath hmethod hb hparse
    hmodel hauth] at hok
  obtain ⟨req1, t1, trest, h1, hrest, ht⟩ := Res.seq_ok_inv hok
  obtain ⟨req2, t2, t3, h2, h3, ht2⟩ := Res.seq_ok_inv hrest
  simp only [hfs] at h3
  unfold conv_arkose_step at h3
  simp only [hg4, Bool.or_true, if_true, habsent] at h3
  unfold conv_arkose_acquire at h3
  simp only [hbroker] at h3
  cases hhv : headerValueFromStr R with
  | error e => simp only [hhv] at h3; simp at h3
  | ok hv =>
    simp only [hhv, Prod.mk.injEq] at h3
    have hveq := headerValueFromStr_ok_eq hhv
    subst hveq
    have hr := Except.ok.inj h3.1
    refine ⟨?_, rfl, objGet_objInsert_self obj _ _,
      fun k hk => objGet_objInsert_ne obj _ k _ hk, ?_⟩
    · rw [← hr]
    · rw [← hr]
      simp only
      rw [headerGet_headerInsert_self]

theorem conv_fresh_arkose_token_injected_witness :
    convReqOut.body = some (serde_to_vec (Json.obj
      (objInsert [(MODEL, Json.str "gpt-4")] ARKOSE_TOKEN (Json.str "chal789")))) ∧
    serde_from_slice (serde_to_vec (Json.obj
        (objInsert [(MODEL, Json.str "gpt-4")] ARKOSE_TOKEN (Json.str "chal789"))))
      = .ok (Json.obj (objInsert [(MODEL, Json.str "gpt-4")] ARKOSE_TOKEN
          (Json.str "chal789"))) ∧
    objGet (objInsert [(MODEL, Json.str "gpt-4")] ARKOSE_TOKEN (Json.str "chal789"))
        ARKOSE_TOKEN = some (Json.str "chal789") ∧
    (∀ k, k ≠ ARKOSE_TOKEN →
       objGet (objInsert [(MODEL, Json.str "gpt-4")] ARKOSE_TOKEN (Json.str "chal789")) k
         = objGet [(MODEL, Json.str "gpt-4")] k) ∧
    headerGet convReqOut.headers ARKOSE_HEADER = some "chal789" :=
  conv_fresh_arkose_token_injected stubEnv convReq convReqOut
    [.getOrInit "abc" "gpt-4" "abc", .sentinel "abc", .arkose .gpt4 (some "abc")]
    (.json (.obj [(MODEL, .str "gpt-4")])) [(MODEL, Json.str "gpt-4")]
    "gpt-4" "abc" "chal789" .gpt4
    rfl rfl rfl rfl rfl rfl rfl rfl rfl rfl rfl

theorem conv_rest_no_getOrInit (env : Env) (req1 : RequestExt)
    (model token : String) (obj : List (String × Json)) :
    ((Res.seq (conv_sentinel_step env req1 token) (fun req2 =>
        match GPTModel.from_str model with
        | .error e => (.error (.BadRequest e), [])
        | .ok gmodel => conv_arkose_step env req2 obj gmodel token)).2.filter
      ExtCall.isGetOrInit) = [] := by
  refine filter_eq_nil_of_all (p := fun c => !c.isGetOrInit) _ ?_
    (fun x hx => by cases x <;> simp_all [ExtCall.isGetOrInit])
  apply Res.seq_all
  · rw [conv_sentinel_step_trace]
    simp [ExtCall.isGetOrInit]
  · intro req2
    cases hfs : GPTModel.from_str model with
    | error e => simp
    | ok gmodel =>
      exact all_weaken _ (conv_arkose_step_all env req2 obj gmodel token)
        (fun x hx => by cases x <;> simp_all [ExtCall.isArkose, ExtCall.isGetOrInit])

/-- C6: for every conversation request (matching route, JSON-object body,
string model, bearer credential) whose Cookie header already contains the
session marker, no get_or_init call appears in the rewrite's trace; when it
is absent, get_or_init is called exactly once with (credential, model, the
reduced cache key); and when that call returns a session id, the successful
rewrite leaves the Cookie header holding exactly that id in
marker=value; form. -/
theorem conv_session_cookie_cache_contract (env : Env) (req : RequestExt) (b : Bytes)
    (obj : List (String × Json)) (model token : String)
    (hpath : req.uri.path = "/backend-api/conversation")
    (hmethod : req.method = Method.POST)
    (hb : req.body = some b)
    (hparse : serde_from_slice b = .ok (Json.obj obj))
    (hmodel : (objGet obj MODEL).bind Json.as_str = some model)
    (hauth : req.bearer_auth = some token) :
    (has_puid req.headers = .ok true →
       (handle_conv_request env req).2.filter ExtCall.isGetOrInit = []) ∧
    (∀ ck, has_puid req.headers = .ok false → env.reduce_key token = .ok ck →
       (handle_conv_request env req).2.filter ExtCall.isGetOrInit
         = [.getOrInit token model ck]) ∧
    (∀ ck id req' t, has_puid req.headers = .ok false → env.reduce_key token = .ok ck →
       env.get_or_init token model ck = .ok (some id) →
       handle_conv_request env req = (.ok req', t) →
       headerGet req'.headers COOKIE = some (PUID ++ "=" ++ id ++ ";")) := by
  have hconv := handle_conv_request_unfold env req b obj model token hpath hmethod hb
    hparse hmodel hauth
  refine ⟨?_, ?_, ?_⟩
  · intro hp
    rw [hconv, Res.seq_eq_ok (conv_puid_step_skip env req model token hp)]
    simp only [List.nil_append]
    exact conv_rest_no_getOrInit env req model token obj
  · intro ck hp hrk
    rw [hconv]
    rcases hps : conv_puid_step env req model token with ⟨pr, pt⟩
    have hpt : pt = [.getOrInit token model ck] := by
      have h := conv_puid_step_trace_called env req model token ck hp hrk
      rw [hps] at h
      exact h
    subst hpt
    cases pr with
    | error e =>
      rw [Res.seq_snd_error rfl]
      simp [ExtCall.isGetOrInit]
    | ok req1 =>
      rw [Res.seq_snd_ok rfl]
      have hrest := conv_rest_no_getOrInit env req1 model token obj
      simp only [List.filter_append, hrest]
      simp [ExtCall.isGetOrInit]
  · intro ck id req' t hp hrk hgi hok
    rw [hconv] at hok
    obtain ⟨req1, t1, trest, h1, hrest, ht⟩ := Res.seq_ok_inv hok
    obtain ⟨req2, t2, t3, h2, h3, ht2⟩ := Res.seq_ok_inv hrest
    have hc1 := conv_puid_step_sets_cookie env req model token ck id req1 t1 hp hrk hgi h1
    have hc2 := conv_sentinel_step_preserves_cookie env req1 token req2 t2 h2
    cases hfs : GPTModel.from_str model with
    | error e => simp only [hfs] at h3; simp at h3
    | ok gmodel =>
      simp only [hfs] at h3
      have hc3 := conv_arkose_step_preserves_cookie env req2 obj gmodel token req' t3 h3
      rw [hc3, hc2, hc1]

theorem conv_session_cookie_cache_contract_witness :
    (has_puid convReq.headers = .ok true →
       (handle_conv_request stubEnv convReq).2.filter ExtCall.isGetOrInit = []) ∧
    (∀ ck, has_puid convReq.headers = .ok false → stubEnv.reduce_key "abc" = .ok ck →
       (handle_conv_request stubEnv convReq).2.filter ExtCall.isGetOrInit
         = [.getOrInit "abc" "gpt-4" ck]) ∧
    (∀ ck id req' t, has_puid convReq.headers = .ok false →
       stubEnv.reduce_key "abc" = .ok ck →
       stubEnv.get_or_init "abc" "gpt-4" ck = .ok (some id) →
       handle_conv_request stubEnv convReq = (.ok req', t) →
       headerGet req'.headers COOKIE = some (PUID ++ "=" ++ id ++ ";")) :=
  conv_session_cookie_cache_contract stubEnv convReq
    (.json (.obj [(MODEL, .str "gpt-4")])) [(MODEL, Json.str "gpt-4")] "gpt-4" "abc"
    rfl rfl rfl rfl rfl rfl

/-- C10: for every conversation request whose Cookie header is present but
does not contain the session marker, if the cache returns a session id and
the rewrite succeeds, the entire Cookie header is replaced with exactly
marker=id; — every cookie previously carried in that header is discarded
from the forwarded request. -/
theorem conv_cookie_header_replaced (env : Env) (req : RequestExt) (b : Bytes)
    (obj : List (String × Json)) (model token c ck id : String)
    (req' : RequestExt) (t : List ExtCall)
    (hpath : req.uri.path = "/backend-api/conversation")
    (hmethod : req.method = Method.POST)
    (hb : req.body = some b)
    (hparse : serde_from_slice b = .ok (Json.obj obj))
    (hmodel : (objGet obj MODEL).bind Json.as_str = some model)
    (hauth : req.bearer_auth = some token)
    (hcookie : headerGet req.headers COOKIE = some c)
    (hts : headerValueToStr c = .ok c)
    (hnm : strContains c PUID = false)
    (hrk : env.reduce_key token = .ok ck)
    (hgi : env.get_or_init token model ck = .ok (some id))
    (hok : handle_conv_request env req = (.ok req', t)) :
    headerGet req'.headers COOKIE = some (PUID ++ "=" ++ id ++ ";") := by
  have hp := has_puid_false_of_no_marker req.headers c hcookie hts hnm
  rw [handle_conv_request_unfold env req b obj model token hpath hmethod hb hparse
    hmodel hauth] at hok
  obtain ⟨req1, t1, trest, h1, hrest, ht⟩ := Res.seq_ok_inv hok
  obtain ⟨req2, t2, t3, h2, h3, ht2⟩ := Res.seq_ok_inv hrest
  have hc1 := conv_puid_step_sets_cookie env req model token ck id req1 t1 hp hrk hgi h1
  have hc2 := conv_sentinel_step_preserves_cookie env req1 token req2 t2 h2
  cases hfs : GPTModel.from_str model with
  | error e => simp only [hfs] at h3; simp at h3
  | ok gmodel =>
    simp only [hfs] at h3
    have hc3 := conv_arkose_step_preserves_cookie env req2 obj gmodel token req' t3 h3
    rw [hc3, hc2, hc1]

theorem conv_cookie_header_replaced_witness :
    headerGet convReqOut.headers COOKIE = some (PUID ++ "=" ++ "sid123" ++ ";") :=
  conv_cookie_header_replaced stubEnv convReqCookie
    (.json (.obj [(MODEL, .str "gpt-4")])) [(MODEL, Json.str "gpt-4")]
    "gpt-4" "abc" "foo=bar" "abc" "sid123" convReqOut
    [.getOrInit "abc" "gpt-4" "abc", .sentinel "abc", .arkose .gpt4 (some "abc")]
    rfl rfl rfl rfl rfl rfl rfl rfl rfl rfl rfl rfl

/-- C8: the sentinel chat-requirements fetch distinguishes a soft absence
from hard errors: a parsed JSON body without a string token field yields
the absence indicator and the sentinel step of the rewrite continues
without failing; a transport-level failure (of the send or of the body
read) is an InternalServerError that aborts the sentinel step; a
non-success HTTP status or an unparsable JSON body is a BadRequest that
aborts the sentinel step. -/
theorem sentinel_fetch_error_taxonomy (env : Env) (req : RequestExt) (token : String) :
    (env.sentinel (trimBearer token) = .transportErr →
       create_chat_requirements_token env token
         = (.error (.InternalServerError .transport), [.sentinel (trimBearer token)]) ∧
       conv_sentinel_step env req token
         = (.error (.InternalServerError .transport), [.sentinel (trimBearer token)])) ∧
    (env.sentinel (trimBearer token) = .bodyErr →
       create_chat_requirements_token env token
         = (.error (.InternalServerError .transport), [.sentinel (trimBearer token)]) ∧
       conv_sentinel_step env req token
         = (.error (.InternalServerError .transport), [.sentinel (trimBearer token)])) ∧
    (env.sentinel (trimBearer token) = .statusErr →
       create_chat_requirements_token env token
         = (.error (.BadRequest .upstreamStatus), [.sentinel (trimBearer token)]) ∧
       conv_sentinel_step env req token
         = (.error (.BadRequest .upstreamStatus), [.sentinel (trimBearer token)])) ∧
    (∀ s, env.sentinel (trimBearer token) = .body (.raw s) →
       create_chat_requirements_token env token
         = (.error (.BadRequest .jsonParse), [.sentinel (trimBearer token)]) ∧
       conv_sentinel_step env req token
         = (.error (.BadRequest .jsonParse), [.sentinel (trimBearer token)])) ∧
    (∀ j, env.sentinel (trimBearer token) = .body (.json j) →
       (j.getField "token").bind Json.as_str = none →
       create_chat_requirements_token env token
         = (.ok none, [.sentinel (trimBearer token)]) ∧
       conv_sentinel_step env req token = (.ok req, [.sentinel (trimBearer token)])) := by
  refine ⟨?_, ?_, ?_, ?_, ?_⟩
  · intro h
    have hc : create_chat_requirements_token env token
        = (.error (.InternalServerError .transport), [.sentinel (trimBearer token)]) := by
      unfold create_chat_requirements_token
      rw [h]
    refine ⟨hc, ?_⟩
    unfold conv_sentinel_step
    rw [hc]
  · intro h
    have hc : create_chat_requirements_token env token
        = (.error (.InternalServerError .transport), [.sentinel (trimBearer token)]) := by
      unfold create_chat_requirements_token
      rw [h]
    refine ⟨hc, ?_⟩
    unfold conv_sentinel_step
    rw [hc]
  · intro h
    have hc : create_chat_requirements_token env token
        = (.error (.BadRequest .upstreamStatus), [.sentinel (trimBearer token)]) := by
      unfold create_chat_requirements_token
      rw [h]
    refine ⟨hc, ?_⟩
    unfold conv_sentinel_step
    rw [hc]
  · intro s h
    have hc : create_chat_requirements_token env token
        = (.error (.BadRequest .jsonParse), [.sentinel (trimBearer token)]) := by
      unfold create_chat_requirements_token
      rw [h]
      rfl
    refine ⟨hc, ?_⟩
    unfold conv_sentinel_step
    rw [hc]
  · intro j h hmiss
    have hc : create_chat_requirements_token env token
        = (.ok none, [.sentinel (trimBearer token)]) := by
      unfold create_chat_requirements_token
      rw [h]
      simp only [serde_from_slice, hmiss]
    refine ⟨hc, ?_⟩
    unfold conv_sentinel_step
    rw [hc]

theorem sentinel_fetch_error_taxonomy_witness :
    (create_chat_requirements_token stubEnvMissing "abc" = (.ok none, [.sentinel "abc"]) ∧
     conv_sentinel_step stubEnvMissing convReq "abc" = (.ok convReq, [.sentinel "abc"])) ∧
    (create_chat_requirements_token stubEnvDown "abc"
        = (.error (.InternalServerError .transport), [.sentinel "abc"]) ∧
     conv_sentinel_step stubEnvDown convReq "abc"
        = (.error (.InternalServerError .transport), [.sentinel "abc"])) :=
  ⟨(sentinel_fetch_error_taxonomy stubEnvMissing convReq "abc").2.2.2.2 (.obj []) rfl rfl,
   (sentinel_fetch_error_taxonomy stubEnvDown convReq "abc").1 rfl⟩

/-- C2 (counterexample): at a body whose arkose_token field is the JSON
number 5 — present, not the empty string and not the string "null" — the
decision still computes need=true and the challenge-token step still
invokes the broker, so "need=true exactly when the field is absent, empty,
or the literal null" fails in the only-if direction. -/
theorem arkose_need_nonstring_counterexample :
    arkose_need [(MODEL, Json.str "gpt-4"), (ARKOSE_TOKEN, Json.num 5)] = true ∧
    objGet [(MODEL, Json.str "gpt-4"), (ARKOSE_TOKEN, Json.num 5)] ARKOSE_TOKEN
      = some (Json.num 5) ∧
    Json.num 5 ≠ Json.str EMPTY ∧
    Json.num 5 ≠ Json.str NULL ∧
    (conv_arkose_step stubEnv convReq [(MODEL, Json.str "gpt-4"), (ARKOSE_TOKEN, Json.num 5)]
        .gpt4 "abc").2 = [.arkose .gpt4 (some "abc")] :=
  ⟨rfl, rfl, fun h => Json.noConfusion h, fun h => Json.noConfusion h, rfl⟩

/-- C2 (amended): for every conversation request whose challenge-token step
runs and whose body's arkose_token field is a non-empty string different
from "null", the challenge broker is never invoked anywhere in the rewrite,
the successful rewrite carries that existing string in the challenge header
unchanged, and the decision computes need=false; the step computes
need=true exactly when the field is absent, or its string view (with
non-string values reading as the empty string) is empty or "null". -/
theorem conv_existing_arkose_token_mirrored (env : Env) (req : RequestExt) (b : Bytes)
    (obj : List (String × Json)) (model token s : String) (gmodel : GPTModel)
    (hpath : req.uri.path = "/backend-api/conversation")
    (hmethod : req.method = Method.POST)
    (hb : req.body = some b)
    (hparse : serde_from_slice b = .ok (Json.obj obj))
    (hmodel : (objGet obj MODEL).bind Json.as_str = some model)
    (hauth : req.bearer_auth = some token)
    (hfs : GPTModel.from_str model = .ok gmodel)
    (hrun : ((env.arkose_gpt3_experiment && gmodel.is_gpt3) || gmodel.is_gpt4) = true)
    (htok : objGet obj ARKOSE_TOKEN = some (Json.str s))
    (hne : s ≠ EMPTY) (hnn : s ≠ NULL) :
    arkose_need obj = false ∧
    (handle_conv_request env req).2.filter ExtCall.isArkose = [] ∧
    (∀ req' t, handle_conv_request env req = (.ok req', t) →
       headerGet req'.headers ARKOSE_HEADER = some s) ∧
    (∀ obj2, arkose_need obj2 = true ↔
       (objGet obj2 ARKOSE_TOKEN = none ∨
        ∃ v, objGet obj2 ARKOSE_TOKEN = some v ∧
          ((Json.as_str v).getD EMPTY = EMPTY ∨ (Json.as_str v).getD EMPTY = NULL))) := by
  have hconv := handle_conv_request_unfold env req b obj model token hpath hmethod hb
    hparse hmodel hauth
  refine ⟨?_, ?_, ?_, ?_⟩
  · simp [arkose_need, htok, Json.as_str, hne, hnn]
  · rw [hconv]
    refine filter_eq_nil_of_all (p := fun c => !c.isArkose) _ ?_
      (fun x hx => by cases x <;> simp_all [ExtCall.isArkose])
    apply Res.seq_all
    · exact all_weaken _ (conv_puid_step_all env req model token)
        (fun x hx => by cases x <;> simp_all [ExtCall.isGetOrInit, ExtCall.isArkose])
    · intro req1
      apply Res.seq_all
      · rw [conv_sentinel_step_trace]
        simp [ExtCall.isArkose]
      · intro req2
        cases hfs2 : GPTModel.from_str model with
        | error e => simp
        | ok gmodel2 =>
          simp only
          rw [conv_arkose_step_mirror_trace env req2 obj gmodel2 token s htok hne hnn]
          rfl
  · intro req' t hok
    rw [hconv] at hok
    obtain ⟨req1, t1, trest, h1, hrest, ht⟩ := Res.seq_ok_inv hok
    obtain ⟨req2, t2, t3, h2, h3, ht2⟩ := Res.seq_ok_inv hrest
    simp only [hfs] at h3
    unfold conv_arkose_step at h3
    rw [if_pos hrun] at h3
    simp only [htok, Json.as_str, Option.getD_some] at h3
    rw [if_neg (by simp [hne, hnn])] at h3
    cases hhv : headerValueFromStr s with
    | error e => simp only [hhv] at h3; simp at h3
    | ok hv =>
      simp only [hhv, Prod.mk.injEq] at h3
      have hveq := headerValueFromStr_ok_eq hhv
      subst hveq
      rw [← Except.ok.inj h3.1]
      simp only
      rw [headerGet_headerInsert_self]
  · intro obj2
    unfold arkose_need
    cases hg : objGet obj2 ARKOSE_TOKEN with
    | none => simp [hg]
    | some v =>
      simp only [hg]
      constructor
      · intro hneed
        right
        refine ⟨v, rfl, ?_⟩
        simpa using hneed
      · rintro (h | ⟨v', hv', h⟩)
        · exact absurd h (by simp)
        · have hvv := Option.some.inj hv'
          subst hvv
          simpa using h

theorem conv_existing_arkose_token_mirrored_witness :
    arkose_need [(MODEL, Json.str "gpt-4"), (ARKOSE_TOKEN, Json.str "tok1")] = false ∧
    (handle_conv_request stubEnv convReqTok).2.filter ExtCall.isArkose = [] ∧
    (∀ req' t, handle_conv_request stubEnv convReqTok = (.ok req', t) →
       headerGet req'.headers ARKOSE_HEADER = some "tok1") ∧
    (∀ obj2, arkose_need obj2 = true ↔
       (objGet obj2 ARKOSE_TOKEN = none ∨
        ∃ v, objGet obj2 ARKOSE_TOKEN = some v ∧
          ((Json.as_str v).getD EMPTY = EMPTY ∨ (Json.as_str v).getD EMPTY = NULL))) :=
  conv_existing_arkose_token_mirrored stubEnv convReqTok
    (.json (.obj [(MODEL, .str "gpt-4"), (ARKOSE_TOKEN, .str "tok1")]))
    [(MODEL, Json.str "gpt-4"), (ARKOSE_TOKEN, Json.str "tok1")]
    "gpt-4" "abc" "tok1" .gpt4
    rfl rfl rfl rfl rfl rfl rfl rfl rfl (by decide) (by decide)

theorem send_request_rewrite_order_witness :
    (∀ e t, handle_conv_request stubEnv getReq = (.error e, t) →
       send_request stubEnv "https://chatgpt.com" getReq = (.error e, t) ∧
       t.filter ExtCall.isSend = []) ∧
    (∀ req1 t1 e t2, handle_conv_request stubEnv getReq = (.ok req1, t1) →
       handle_dashboard_request stubEnv req1 = (.error e, t2) →
       send_request stubEnv "https://chatgpt.com" getReq = (.error e, t1 ++ t2) ∧
       (t1 ++ t2).filter ExtCall.isSend = []) ∧
    (∀ req1 t1 req2 t2 e, handle_conv_request stubEnv getReq = (.ok req1, t1) →
       handle_dashboard_request stubEnv req1 = (.ok req2, t2) →
       stubEnv.header_convert req2.headers req2.jar "https://chatgpt.com" = .error e →
       send_request stubEnv "https://chatgpt.com" getReq
         = (.error e, t1 ++ t2 ++ [.headerConvert]) ∧
       (t1 ++ t2 ++ [ExtCall.headerConvert]).filter ExtCall.isSend = []) ∧
    (∀ r t, send_request stubEnv "https://chatgpt.com" getReq = (.ok r, t) →
       ∃ req1 t1 req2 t2 hs,
         handle_conv_request stubEnv getReq = (.ok req1, t1) ∧
         handle_dashboard_request stubEnv req1 = (.ok req2, t2) ∧
         stubEnv.header_convert req2.headers req2.jar "https://chatgpt.com" = .ok hs ∧
         t = t1 ++ t2 ++ [.headerConvert,
               .send ("https://chatgpt.com" ++ getReq.uri.path_and_query)]) :=
  send_request_rewrite_order stubEnv "https://chatgpt.com" getReq rfl

end NinjaProxy
